import Mathlib

/-!
Verification development for the secbot alert-aggregation pipeline
(`src/github_client.py`, `src/storage.py`).

The Python code is shallowly embedded: JSON payloads become an inductive
`Json` type with Python's dict-access and truthiness semantics, fallible
code returns `Option`/`Except`, and the mutable JSON-file registry becomes
explicit state passing.
-/

namespace SecBot

/-- JSON values as delivered by the REST API.  Python's `json.loads` maps
JSON null to `None`, objects to `dict`, arrays to `list`. -/
inductive Json where
  | null
  | bool (b : Bool)
  | num (n : Int)
  | str (s : String)
  | arr (elems : List Json)
  | obj (fields : List (String × Json))
deriving Repr

/-- Python truthiness on JSON values: `None`, `False`, `0`, `""`, `[]`,
and an empty dict are falsy. -/
def Json.isFalsy : Json → Bool
  | .null => true
  | .bool b => !b
  | .num n => n == 0
  | .str s => s == ""
  | .arr elems => elems.isEmpty
  | .obj fields => fields.isEmpty

/-- First-match association lookup, the semantics of `dict` access for an
object whose keys are unique. -/
def lookupField : List (String × Json) → String → Option Json
  | [], _ => none
  | (k, v) :: rest, key => if k = key then some v else lookupField rest key

/-- Python `d.get(key, default)`: the default is used only when the key is
absent.  Returns `none` (an `AttributeError`) when the receiver is not a
dict. -/
def pyGetD (j : Json) (key : String) (dflt : Json) : Option Json :=
  match j with
  | .obj fields => some ((lookupField fields key).getD dflt)
  | _ => none

/-- Python `d.get(key)`: absent keys yield `None` (JSON null). -/
def pyGet (j : Json) (key : String) : Option Json :=
  pyGetD j key .null

/-- Python `a or b`. -/
def pyOr (a b : Json) : Json :=
  if a.isFalsy then b else a

/-- Reading a JSON value into a string-typed dataclass slot; a non-string
value would make the downstream pipeline (lower-casing, formatting)
ill-typed, so it is modelled as a failure. -/
def asStr : Json → Option String
  | .str s => some s
  | _ => none

/-- `d.get(key, "default")` consumed as a string. -/
def getStrD (j : Json) (key dflt : String) : Option String :=
  match pyGetD j key (.str dflt) with
  | none => none
  | some v => asStr v

/-- `d.get(key) or ""` consumed as a string. -/
def getStrOrEmpty (j : Json) (key : String) : Option String :=
  match pyGet j key with
  | none => none
  | some v => asStr (pyOr v (.str ""))

/-- The normalized record (`SecurityAlert` dataclass, `github_client.py`). -/
structure SecurityAlert where
  repo_name : String
  package_name : String
  severity : String
  cve_id : String
  ghsa_id : String
  summary : String
  vulnerable_version : String
  patched_version : String
  url : String
  created_at : String
deriving Repr, DecidableEq

/-- `first_patched.get("identifier") if first_patched else "N/A"`
(`github_client.py` line 100). -/
def patchedVersionOf (first_patched : Json) : Option String :=
  if first_patched.isFalsy then some "N/A"
  else
    match pyGet first_patched "identifier" with
    | none => none
    | some v => asStr v

/-- The normalization of one raw alert: the body of the `for alert in data`
loop of `get_dependabot_alerts` (`github_client.py` lines 95–117).
`none` models an uncaught type error during field access. -/
def normalize (owner repo : String) (alert : Json) : Option SecurityAlert :=
  match pyGet alert "security_advisory" with
  | none => none
  | some advJ =>
  let security_advisory := pyOr advJ (.obj [])
  match pyGet alert "security_vulnerability" with
  | none => none
  | some vulnJ =>
  let vulnerability := pyOr vulnJ (.obj [])
  match pyGet vulnerability "first_patched_version" with
  | none => none
  | some first_patched =>
  match patchedVersionOf first_patched with
  | none => none
  | some patched_version =>
  match pyGet vulnerability "package" with
  | none => none
  | some pkgJ =>
  let package := pyOr pkgJ (.obj [])
  match getStrD package "name" "unknown" with
  | none => none
  | some package_name =>
  match getStrD security_advisory "severity" "unknown" with
  | none => none
  | some severity =>
  match getStrOrEmpty security_advisory "cve_id" with
  | none => none
  | some cve_id =>
  match getStrOrEmpty security_advisory "ghsa_id" with
  | none => none
  | some ghsa_id =>
  match getStrD security_advisory "summary" "No description" with
  | none => none
  | some summary =>
  match getStrD vulnerability "vulnerable_version_range" "" with
  | none => none
  | some vulnerable_version =>
  match getStrD alert "html_url" "" with
  | none => none
  | some url =>
  match getStrD alert "created_at" "" with
  | none => none
  | some created_at =>
  some (SecurityAlert.mk (owner ++ "/" ++ repo) package_name severity cve_id
    ghsa_id summary vulnerable_version patched_version url created_at)

/-! ### Shapes of raw alerts with optional / null fields

The space of raw alert records the defensive-normalization claim ranges
over: each listed field may be missing, JSON-null (where the API allows a
null), or a present value. -/

/-- A field that may be absent from the object, present as JSON null, or
present with a value. -/
inductive OptField (α : Type) where
  | missing
  | null
  | val (a : α)
deriving Repr, DecidableEq

def OptField.mapJ (f : α → Json) : OptField α → OptField Json
  | .missing => .missing
  | .null => .null
  | .val a => .val (f a)

/-- The `security_advisory` sub-object: `severity`/`summary` may be absent,
`cve_id`/`ghsa_id` may be absent or null. -/
structure RawAdvisory where
  severity : Option String
  cve_id : OptField String
  ghsa_id : OptField String
  summary : Option String
deriving Repr, DecidableEq

/-- The `security_vulnerability` sub-object: `package` may be absent or
null or an object whose `name` may be absent; `first_patched_version` may
be absent or null or an object carrying an `identifier`. -/
structure RawVuln where
  package : OptField (Option String)
  vulnerable_version_range : Option String
  first_patched_version : OptField String
deriving Repr, DecidableEq

/-- Contribution of one optional field to a JSON object. -/
def optEntry (key : String) : OptField Json → List (String × Json)
  | .missing => []
  | .null => [(key, .null)]
  | .val j => [(key, j)]

/-- Contribution of one absent-or-string field to a JSON object. -/
def strEntry (key : String) : Option String → List (String × Json)
  | none => []
  | some s => [(key, .str s)]

def mkAdvisory (a : RawAdvisory) : Json :=
  .obj (strEntry "severity" a.severity
    ++ optEntry "cve_id" (a.cve_id.mapJ .str)
    ++ optEntry "ghsa_id" (a.ghsa_id.mapJ .str)
    ++ strEntry "summary" a.summary)

def mkPackage : Option String → Json
  | none => .obj []
  | some s => .obj [("name", .str s)]

def mkFirstPatched (s : String) : Json :=
  .obj [("identifier", .str s)]

def mkVuln (v : RawVuln) : Json :=
  .obj (optEntry "package" (v.package.mapJ mkPackage)
    ++ strEntry "vulnerable_version_range" v.vulnerable_version_range
    ++ optEntry "first_patched_version" (v.first_patched_version.mapJ mkFirstPatched))

/-- A raw alert record in which each documented-optional field is missing,
null or present, independently. -/
def mkRawAlert (adv : OptField RawAdvisory) (vuln : OptField RawVuln)
    (url created : Option String) : Json :=
  .obj (optEntry "security_advisory" (adv.mapJ mkAdvisory)
    ++ optEntry "security_vulnerability" (vuln.mapJ mkVuln)
    ++ strEntry "html_url" url
    ++ strEntry "created_at" created)

/-! ### Documented defaults (spec §3 / §4.2), per output field -/

/-- Documented default: severity `"unknown"` when absent. -/
def sevOf : OptField RawAdvisory → String
  | .val a => a.severity.getD "unknown"
  | _ => "unknown"

/-- Documented default: CVE id `""` when absent or null. -/
def cveOf : OptField RawAdvisory → String
  | .val a => match a.cve_id with | .val s => s | _ => ""
  | _ => ""

/-- Documented default: advisory id `""` when absent or null. -/
def ghsaOf : OptField RawAdvisory → String
  | .val a => match a.ghsa_id with | .val s => s | _ => ""
  | _ => ""

/-- Documented default: placeholder summary when absent. -/
def summaryOf : OptField RawAdvisory → String
  | .val a => a.summary.getD "No description"
  | _ => "No description"

/-- Documented default: package name `"unknown"` when the package object
or its name is absent or null. -/
def pkgNameOf : OptField RawVuln → String
  | .val v => match v.package with | .val (some s) => s | _ => "unknown"
  | _ => "unknown"

/-- Documented default: empty vulnerable range when absent. -/
def vvrOf : OptField RawVuln → String
  | .val v => v.vulnerable_version_range.getD ""
  | _ => ""

/-- Documented default: `"N/A"` when `first_patched_version` is null or
absent. -/
def patchedOf : OptField RawVuln → String
  | .val v => match v.first_patched_version with | .val s => s | _ => "N/A"
  | _ => "N/A"

/-- The normalized record the spec's documented defaults prescribe for a
raw alert of the given shape. -/
def expectedNormalized (owner repo : String) (adv : OptField RawAdvisory)
    (vuln : OptField RawVuln) (url created : Option String) : SecurityAlert :=
  SecurityAlert.mk (owner ++ "/" ++ repo) (pkgNameOf vuln) (sevOf adv)
    (cveOf adv) (ghsaOf adv) (summaryOf adv) (vvrOf vuln) (patchedOf vuln)
    (url.getD "") (created.getD "")

/-! ### Evaluation of `normalize` on generated shapes -/

/-- The JSON value `alert.get("security_advisory")` evaluates to. -/
def advTopJson : OptField RawAdvisory → Json
  | .val a => mkAdvisory a
  | _ => .null

/-- The JSON value `alert.get("security_vulnerability")` evaluates to. -/
def vulnTopJson : OptField RawVuln → Json
  | .val v => mkVuln v
  | _ => .null

/-- The JSON value `vulnerability.get("first_patched_version")` evaluates
to. -/
def fpJson : OptField RawVuln → Json
  | .val v => match v.first_patched_version with | .val s => mkFirstPatched s | _ => .null
  | _ => .null

/-- The JSON value `vulnerability.get("package")` evaluates to. -/
def pkgJson : OptField RawVuln → Json
  | .val v => match v.package with | .val p => mkPackage p | _ => .null
  | _ => .null

lemma get_adv (adv : OptField RawAdvisory) (vuln : OptField RawVuln)
    (url created : Option String) :
    pyGet (mkRawAlert adv vuln url created) "security_advisory"
      = some (advTopJson adv) := by
  cases adv <;> cases vuln <;> cases url <;> cases created <;> rfl

lemma get_vuln (adv : OptField RawAdvisory) (vuln : OptField RawVuln)
    (url created : Option String) :
    pyGet (mkRawAlert adv vuln url created) "security_vulnerability"
      = some (vulnTopJson vuln) := by
  cases adv <;> cases vuln <;> cases url <;> cases created <;> rfl

lemma get_url (adv : OptField RawAdvisory) (vuln : OptField RawVuln)
    (url created : Option String) :
    getStrD (mkRawAlert adv vuln url created) "html_url" ""
      = some (url.getD "") := by
  cases adv <;> cases vuln <;> cases url <;> cases created <;> rfl

lemma get_created (adv : OptField RawAdvisory) (vuln : OptField RawVuln)
    (url created : Option String) :
    getStrD (mkRawAlert adv vuln url created) "created_at" ""
      = some (created.getD "") := by
  cases adv <;> cases vuln <;> cases url <;> cases created <;> rfl

lemma sev_step (adv : OptField RawAdvisory) :
    getStrD (pyOr (advTopJson adv) (.obj [])) "severity" "unknown"
      = some (sevOf adv) := by
  rcases adv with _ | _ | ⟨sev, cve, ghsa, summ⟩ <;>
    first
      | rfl
      | cases sev <;> cases cve <;> cases ghsa <;> cases summ <;> rfl

lemma pyOr_null (b : Json) : pyOr .null b = b := rfl

lemma pyOr_obj_nil (b : Json) : pyOr (.obj []) b = b := rfl

lemma pyOr_obj_cons (e : String × Json) (l : List (String × Json)) (b : Json) :
    pyOr (.obj (e :: l)) b = .obj (e :: l) := by
  simp [pyOr, Json.isFalsy]

lemma asStr_pyOr_str (s : String) : asStr (pyOr (.str s) (.str "")) = some s := by
  by_cases h : s = "" <;> simp [pyOr, Json.isFalsy, asStr, h]

lemma asStr_str (s : String) : asStr (.str s) = some s := rfl

lemma cve_step (adv : OptField RawAdvisory) :
    getStrOrEmpty (pyOr (advTopJson adv) (.obj [])) "cve_id"
      = some (cveOf adv) := by
  rcases adv with _ | _ | ⟨sev, cve, ghsa, summ⟩ <;>
    first
      | rfl
      | cases sev <;> cases cve <;> cases ghsa <;> cases summ <;>
          simp [getStrOrEmpty, advTopJson, mkAdvisory, pyGet, pyGetD,
            strEntry, optEntry, OptField.mapJ, lookupField, cveOf,
            pyOr_null, pyOr_obj_nil, pyOr_obj_cons, asStr_pyOr_str, asStr_str]

lemma ghsa_step (adv : OptField RawAdvisory) :
    getStrOrEmpty (pyOr (advTopJson adv) (.obj [])) "ghsa_id"
      = some (ghsaOf adv) := by
  rcases adv with _ | _ | ⟨sev, cve, ghsa, summ⟩ <;>
    first
      | rfl
      | cases sev <;> cases cve <;> cases ghsa <;> cases summ <;>
          simp [getStrOrEmpty, advTopJson, mkAdvisory, pyGet, pyGetD,
            strEntry, optEntry, OptField.mapJ, lookupField, ghsaOf,
            pyOr_null, pyOr_obj_nil, pyOr_obj_cons, asStr_pyOr_str, asStr_str]

lemma summary_step (adv : OptField RawAdvisory) :
    getStrD (pyOr (advTopJson adv) (.obj [])) "summary" "No description"
      = some (summaryOf adv) := by
  rcases adv with _ | _ | ⟨sev, cve, ghsa, summ⟩ <;>
    first
      | rfl
      | cases sev <;> cases cve <;> cases ghsa <;> cases summ <;> rfl

lemma fp_step (vuln : OptField RawVuln) :
    pyGet (pyOr (vulnTopJson vuln) (.obj [])) "first_patched_version"
      = some (fpJson vuln) := by
  rcases vuln with _ | _ | ⟨pkg, vvr, fp⟩ <;>
    first
      | rfl
      | cases pkg <;> cases vvr <;> cases fp <;> rfl

lemma patched_step (vuln : OptField RawVuln) :
    patchedVersionOf (fpJson vuln) = some (patchedOf vuln) := by
  rcases vuln with _ | _ | ⟨pkg, vvr, fp⟩ <;>
    first
      | rfl
      | cases fp <;> rfl

lemma pkg_get (vuln : OptField RawVuln) :
    pyGet (pyOr (vulnTopJson vuln) (.obj [])) "package"
      = some (pkgJson vuln) := by
  rcases vuln with _ | _ | ⟨pkg, vvr, fp⟩ <;>
    first
      | rfl
      | cases pkg <;> cases vvr <;> cases fp <;> rfl

lemma pkgname_step (vuln : OptField RawVuln) :
    getStrD (pyOr (pkgJson vuln) (.obj [])) "name" "unknown"
      = some (pkgNameOf vuln) := by
  rcases vuln with _ | _ | ⟨pkg, vvr, fp⟩ <;>
    first
      | rfl
      | rcases pkg with _ | _ | ⟨_ | s⟩ <;> rfl

lemma vvr_step (vuln : OptField RawVuln) :
    getStrD (pyOr (vulnTopJson vuln) (.obj [])) "vulnerable_version_range" ""
      = some (vvrOf vuln) := by
  rcases vuln with _ | _ | ⟨pkg, vvr, fp⟩ <;>
    first
      | rfl
      | cases pkg <;> cases vvr <;> cases fp <;> rfl

/-- **C1.**  For every raw alert record in which any combination of the
documented-optional fields is missing or null (missing
`security_advisory`, missing `security_vulnerability`, null
`first_patched_version`, null `package`, missing
severity/summary/cve_id/ghsa_id), `normalize` never fails, and each
output field carries its documented default when the source value is
absent: package name `"unknown"`, severity `"unknown"`, CVE id `""`,
advisory id `""`, summary `"No description"`, patched version `"N/A"`. -/
theorem normalize_total_with_documented_defaults
    (owner repo : String) (adv : OptField RawAdvisory)
    (vuln : OptField RawVuln) (url created : Option String) :
    normalize owner repo (mkRawAlert adv vuln url created)
      = some (expectedNormalized owner repo adv vuln url created) := by
  simp only [normalize, get_adv, get_vuln, fp_step, patched_step, pkg_get,
    pkgname_step, sev_step, cve_step, ghsa_step, summary_step, vvr_step,
    get_url, get_created, expectedNormalized]

/-! ### Severity bucketing (`get_all_alerts`, lines 129–151) -/

/-- The fresh four-key bucket map `all_alerts` (lines 130–135),
represented as an association list with unique keys. -/
def emptyBuckets : List (String × List SecurityAlert) :=
  [("critical", []), ("high", []), ("moderate", []), ("low", [])]

/-- Dict key lookup (`all_alerts[key]`, and `key in all_alerts` via
`isSome`). -/
def lookupBucket : List (String × List SecurityAlert) → String →
    Option (List SecurityAlert)
  | [], _ => none
  | (k, v) :: rest, key => if key = k then some v else lookupBucket rest key

/-- `all_alerts[key].append(alert)`: in-place append at an existing key. -/
def appendAt (m : List (String × List SecurityAlert)) (key : String)
    (alert : SecurityAlert) : List (String × List SecurityAlert) :=
  m.map (fun p => if key = p.1 then (p.1, p.2 ++ [alert]) else p)

/-- Python `str.lower()` on the ASCII severity strings, via the character
list (Lean's `String.toLower` is defined by well-founded recursion and
does not evaluate in proofs). -/
def strLower (s : String) : String := String.mk (s.data.map Char.toLower)

/-- The body of the bucketing loop (lines 144–149): lower-case the
severity, file under that key if it is in the map, else under "low". -/
def addAlert (m : List (String × List SecurityAlert))
    (alert : SecurityAlert) : List (String × List SecurityAlert) :=
  let severity := strLower alert.severity
  if (lookupBucket m severity).isSome then appendAt m severity alert
  else appendAt m "low" alert

/-- Effect of the bucketing loop on the stream of normalized alerts, in
discovery order. -/
def bucket (records : List SecurityAlert) : List (String × List SecurityAlert) :=
  records.foldl addAlert emptyBuckets

/-- The severity key an alert is filed under: its lower-cased severity
when that is one of the four fixed keys, otherwise "low". -/
def severityKey (alert : SecurityAlert) : String :=
  let s := strLower alert.severity
  if s = "critical" ∨ s = "high" ∨ s = "moderate" ∨ s = "low" then s else "low"

lemma addAlert_quad (c h m l : List SecurityAlert) (a : SecurityAlert) :
    addAlert [("critical", c), ("high", h), ("moderate", m), ("low", l)] a
      = [("critical", if severityKey a = "critical" then c ++ [a] else c),
         ("high", if severityKey a = "high" then h ++ [a] else h),
         ("moderate", if severityKey a = "moderate" then m ++ [a] else m),
         ("low", if severityKey a = "low" then l ++ [a] else l)] := by
  by_cases h1 : strLower a.severity = "critical"
  · simp [addAlert, severityKey, appendAt, lookupBucket, h1]
  · by_cases h2 : strLower a.severity = "high"
    · simp [addAlert, severityKey, appendAt, lookupBucket, h1, h2]
    · by_cases h3 : strLower a.severity = "moderate"
      · simp [addAlert, severityKey, appendAt, lookupBucket, h1, h2, h3]
      · by_cases h4 : strLower a.severity = "low"
        · simp [addAlert, severityKey, appendAt, lookupBucket, h1, h2, h3, h4]
        · simp [addAlert, severityKey, appendAt, lookupBucket, h1, h2, h3, h4]

lemma bucket_go (rs : List SecurityAlert) (c h m l : List SecurityAlert) :
    rs.foldl addAlert [("critical", c), ("high", h), ("moderate", m), ("low", l)]
      = [("critical", c ++ rs.filter (fun a => severityKey a = "critical")),
         ("high", h ++ rs.filter (fun a => severityKey a = "high")),
         ("moderate", m ++ rs.filter (fun a => severityKey a = "moderate")),
         ("low", l ++ rs.filter (fun a => severityKey a = "low"))] := by
  induction rs generalizing c h m l with
  | nil => simp
  | cons a rs ih =>
    rw [List.foldl_cons, addAlert_quad, ih]
    by_cases h1 : severityKey a = "critical" <;>
      by_cases h2 : severityKey a = "high" <;>
        by_cases h3 : severityKey a = "moderate" <;>
          by_cases h4 : severityKey a = "low" <;>
            simp_all [List.filter_cons]

/-- The four bucket lists, in fixed key order, each in discovery order. -/
lemma bucket_eq (rs : List SecurityAlert) :
    bucket rs
      = [("critical", rs.filter (fun a => severityKey a = "critical")),
         ("high", rs.filter (fun a => severityKey a = "high")),
         ("moderate", rs.filter (fun a => severityKey a = "moderate")),
         ("low", rs.filter (fun a => severityKey a = "low"))] := by
  simpa using bucket_go rs [] [] [] []

lemma severityKey_cases (a : SecurityAlert) :
    severityKey a = "critical" ∨ severityKey a = "high"
      ∨ severityKey a = "moderate" ∨ severityKey a = "low" := by
  unfold severityKey
  by_cases h1 : strLower a.severity = "critical" <;>
    by_cases h2 : strLower a.severity = "high" <;>
      by_cases h3 : strLower a.severity = "moderate" <;>
        by_cases h4 : strLower a.severity = "low" <;>
          simp_all

/-- **C4.**  Bucketing lower-cases an alert's severity and files the
alert under the matching key of the four-key map; any alert whose
lower-cased severity is not one of the four keys (including `""` and the
`"unknown"` sentinel) is filed under "low".  In particular a severity
that lower-cases to `"critical"` (`"CRITICAL"` in any letter case)
lands in the "critical" bucket. -/
theorem bucket_lowercased_severity_with_low_fallback
    (rs : List SecurityAlert) (a : SecurityAlert) :
    (∀ k, (k = "critical" ∨ k = "high" ∨ k = "moderate" ∨ k = "low") →
      strLower a.severity = k →
        lookupBucket (bucket (rs ++ [a])) k
          = (lookupBucket (bucket rs) k).map (fun ls => ls ++ [a]))
    ∧ (¬(strLower a.severity = "critical" ∨ strLower a.severity = "high"
          ∨ strLower a.severity = "moderate" ∨ strLower a.severity = "low") →
        lookupBucket (bucket (rs ++ [a])) "low"
          = (lookupBucket (bucket rs) "low").map (fun ls => ls ++ [a])) := by
  constructor
  · rintro k hk hlow
    have hkey : severityKey a = k := by
      rcases hk with rfl | rfl | rfl | rfl <;> simp [severityKey, hlow]
    rcases hk with rfl | rfl | rfl | rfl <;>
      simp [bucket_eq, lookupBucket, List.filter_append, hkey]
  · intro hnone
    have hkey : severityKey a = "low" := by
      simp only [severityKey]
      rw [if_neg]
      intro hc
      exact hnone hc
    simp [bucket_eq, lookupBucket, List.filter_append, hkey]

/-- Witness for C4: an alert with severity `"CRITICAL"` goes to the
"critical" bucket, and one with severity `""` goes to the "low"
bucket. -/
theorem bucket_lowercased_severity_with_low_fallback_witness :
    (lookupBucket
        (bucket [⟨"o/r", "p", "CRITICAL", "", "", "s", "", "N/A", "", ""⟩])
        "critical"
      = some [⟨"o/r", "p", "CRITICAL", "", "", "s", "", "N/A", "", ""⟩])
    ∧ (lookupBucket
        (bucket [⟨"o/r", "p", "", "", "", "s", "", "N/A", "", ""⟩]) "low"
      = some [⟨"o/r", "p", "", "", "", "s", "", "N/A", "", ""⟩]) := by
  constructor
  · exact ((bucket_lowercased_severity_with_low_fallback [] _).1 "critical"
      (by decide) (by decide)).trans (by decide)
  · exact ((bucket_lowercased_severity_with_low_fallback [] _).2
      (by decide)).trans (by decide)

/-- **C5.**  For every input sequence of normalized alerts the bucket map
contains exactly the four keys critical/high/moderate/low in order; each
bucket is the subsequence of input records filed under that key (so order
within a bucket is discovery order); the four lengths sum to the input
length; and every record appears in exactly one bucket, namely the one of
its severity key. -/
theorem bucket_four_key_partition (rs : List SecurityAlert) :
    (bucket rs).map Prod.fst = ["critical", "high", "moderate", "low"]
    ∧ (∀ k, (k = "critical" ∨ k = "high" ∨ k = "moderate" ∨ k = "low") →
        lookupBucket (bucket rs) k
          = some (rs.filter (fun a => severityKey a = k)))
    ∧ ((bucket rs).map (fun p => p.2.length)).sum = rs.length
    ∧ (∀ a ∈ rs, ∀ k ls, lookupBucket (bucket rs) k = some ls →
        (a ∈ ls ↔ k = severityKey a)) := by
  refine ⟨by simp [bucket_eq], ?_, ?_, ?_⟩
  · rintro k (rfl | rfl | rfl | rfl) <;> simp [bucket_eq, lookupBucket]
  · rw [bucket_eq]
    simp only [List.map_cons, List.map_nil, List.sum_cons, List.sum_nil]
    induction rs with
    | nil => simp
    | cons a rs ih =>
      rcases severityKey_cases a with hk | hk | hk | hk <;>
        simp [List.filter_cons, hk, ih] <;> omega
  · intro a ha k ls hlk
    rw [bucket_eq] at hlk
    simp only [lookupBucket] at hlk
    split_ifs at hlk with hc hh hm hl
    · obtain rfl := Option.some.inj hlk
      subst hc
      simp [List.mem_filter, ha, eq_comm]
    · obtain rfl := Option.some.inj hlk
      subst hh
      simp [List.mem_filter, ha, eq_comm]
    · obtain rfl := Option.some.inj hlk
      subst hm
      simp [List.mem_filter, ha, eq_comm]
    · obtain rfl := Option.some.inj hlk
      subst hl
      simp [List.mem_filter, ha, eq_comm]

/-- Witness for C5 (concrete two-record run exercising the inner
implications). -/
theorem bucket_four_key_partition_witness :
    (bucket [⟨"o/r", "p", "HIGH", "", "", "s", "", "N/A", "", ""⟩,
             ⟨"o/r", "q", "unknown", "", "", "s", "", "N/A", "", ""⟩]).map
        Prod.fst
      = ["critical", "high", "moderate", "low"]
    ∧ lookupBucket
        (bucket [⟨"o/r", "p", "HIGH", "", "", "s", "", "N/A", "", ""⟩,
                 ⟨"o/r", "q", "unknown", "", "", "s", "", "N/A", "", ""⟩])
        "high"
      = some [⟨"o/r", "p", "HIGH", "", "", "s", "", "N/A", "", ""⟩] :=
  ⟨(bucket_four_key_partition _).1,
    ((bucket_four_key_partition _).2.1 "high" (Or.inr (Or.inl rfl))).trans
      (by decide)⟩

/-! ### The HTTP layer (`get_user_repos`, `get_dependabot_alerts`,
`get_all_alerts`) -/

/-- Outcome of one alert-fetch GET as the client sees it: a response with
a status code and parsed JSON array body, or a raised
`requests.exceptions.RequestException` (network failure). -/
inductive FetchResult where
  | response (status : Nat) (body : List Json)
  | netError

/-- The normalization loop over the response array (lines 95–117): an
uncaught type error while normalizing any element propagates (`none`). -/
def normalizeAll (owner repo : String) : List Json → Option (List SecurityAlert)
  | [] => some []
  | a :: rest =>
    match normalize owner repo a with
    | none => none
    | some alert =>
      match normalizeAll owner repo rest with
      | none => none
      | some alerts => some (alert :: alerts)

/-- `get_dependabot_alerts` (lines 73–122): 403/404 return an empty list;
any other error status makes `raise_for_status` raise an `HTTPError`,
which the `except RequestException` clause catches, returning the alerts
collected so far (none); a network failure is caught the same way;
otherwise the body is normalized element by element. -/
def get_dependabot_alerts (env : String → String → FetchResult)
    (owner repo : String) : Option (List SecurityAlert) :=
  match env owner repo with
  | .netError => some []
  | .response status body =>
    if status = 403 ∨ status = 404 then some []
    else if 400 ≤ status then some []
    else normalizeAll owner repo body

/-- A fetch outcome the code treats as a per-repository soft failure:
403/404, any other HTTP error status, or a network failure. -/
def softFail : FetchResult → Bool
  | .netError => true
  | .response status _ => decide (status = 403 ∨ status = 404) || decide (400 ≤ status)

/-- The `{owner.login, name}` projection of a repository object. -/
structure RepoRef where
  owner : String
  name : String
deriving Repr, DecidableEq

/-- A fatal transport failure during repository listing:
`raise_for_status` (with the status) or a network failure. -/
inductive TransportError where
  | httpError (status : Nat)
  | netError
deriving Repr, DecidableEq

/-- One page of the repository listing: the parsed array for that page,
or a transport failure for that page request. -/
inductive PageResult where
  | ok (repos : List RepoRef)
  | err (e : TransportError)

/-- `get_user_repos` (lines 47–71): requests pages 1, 2, … in order,
appending each page's items, stopping at the first empty page; a
transport failure on any page aborts with the error.  The server's page
stream is given as a list; pages beyond it are empty (the credential
sees finitely many repositories). -/
def get_user_repos : List PageResult → Except TransportError (List RepoRef)
  | [] => .ok []
  | .err e :: _ => .error e
  | .ok [] :: _ => .ok []
  | .ok (r :: rs) :: rest =>
    match get_user_repos rest with
    | .error e => .error e
    | .ok more => .ok ((r :: rs) ++ more)

/-- Aggregation failure: a listing transport error propagates to the
caller; `crash` models an uncaught normalization type error. -/
inductive AggError where
  | transport (e : TransportError)
  | crash
deriving Repr, DecidableEq

/-- The per-repository accumulation loop of `get_all_alerts`
(lines 139–149). -/
def aggregate_over (env : String → String → FetchResult) :
    List RepoRef → List (String × List SecurityAlert) →
      Option (List (String × List SecurityAlert))
  | [], acc => some acc
  | repo :: rest, acc =>
    match get_dependabot_alerts env repo.owner repo.name with
    | none => none
    | some alerts => aggregate_over env rest (alerts.foldl addAlert acc)

/-- `get_all_alerts` (lines 124–151): list the repositories, then fetch
and bucket each repository's alerts in discovery order. -/
def get_all_alerts (pages : List PageResult)
    (env : String → String → FetchResult) :
    Except AggError (List (String × List SecurityAlert)) :=
  match get_user_repos pages with
  | .error e => .error (.transport e)
  | .ok repos =>
    match aggregate_over env repos emptyBuckets with
    | none => .error .crash
    | some buckets => .ok buckets

lemma get_dependabot_soft (env : String → String → FetchResult)
    (owner repo : String) (h : softFail (env owner repo) = true) :
    get_dependabot_alerts env owner repo = some [] := by
  cases henv : env owner repo with
  | netError => simp [get_dependabot_alerts, henv]
  | response status body =>
    rw [henv] at h
    simp only [softFail, Bool.or_eq_true, decide_eq_true_eq] at h
    simp only [get_dependabot_alerts, henv]
    rcases h with h34 | h4
    · rw [if_pos h34]
    · by_cases h34 : status = 403 ∨ status = 404
      · rw [if_pos h34]
      · rw [if_neg h34, if_pos h4]

lemma aggregate_skip (env : String → String → FetchResult) (x : RepoRef)
    (hx : get_dependabot_alerts env x.owner x.name = some [])
    (pre post : List RepoRef) (acc : List (String × List SecurityAlert)) :
    aggregate_over env (pre ++ x :: post) acc
      = aggregate_over env (pre ++ post) acc := by
  induction pre generalizing acc with
  | nil => simp [aggregate_over, hx]
  | cons p pre ih =>
    simp only [List.cons_append, aggregate_over]
    cases get_dependabot_alerts env p.owner p.name with
    | none => rfl
    | some alerts => exact ih _

lemma get_user_repos_single (rs : List RepoRef) :
    get_user_repos [PageResult.ok rs] = .ok rs := by
  cases rs <;> simp [get_user_repos]

/-- **C2.**  A repository whose alert fetch is a soft failure (HTTP
403/404, any other HTTP error status, or a network failure) contributes
zero alerts, no error reaches the caller, and the aggregation over all
repositories equals the aggregation with that repository removed — every
other repository's alerts are still included. -/
theorem soft_failure_isolated (env : String → String → FetchResult)
    (pre post : List RepoRef) (x : RepoRef)
    (h : softFail (env x.owner x.name) = true) :
    get_dependabot_alerts env x.owner x.name = some []
    ∧ aggregate_over env (pre ++ x :: post) emptyBuckets
        = aggregate_over env (pre ++ post) emptyBuckets
    ∧ get_all_alerts [PageResult.ok (pre ++ x :: post)] env
        = get_all_alerts [PageResult.ok (pre ++ post)] env := by
  have hx := get_dependabot_soft env x.owner x.name h
  refine ⟨hx, aggregate_skip env x hx pre post _, ?_⟩
  simp [get_all_alerts, get_user_repos_single,
    aggregate_skip env x hx pre post emptyBuckets]

/-- A two-repository environment in which alert access is forbidden for
one repository. -/
def envC2 : String → String → FetchResult := fun _ repo =>
  if repo = "blocked" then .response 403 []
  else .response 200
    [mkRawAlert (.val ⟨some "high", .missing, .missing, none⟩) .missing none none]

/-- Witness for C2: one repository answering 403 contributes nothing
while another repository's alert is still aggregated. -/
theorem soft_failure_isolated_witness :
    get_all_alerts [PageResult.ok [⟨"o", "blocked"⟩, ⟨"o", "r"⟩]] envC2
        = get_all_alerts [PageResult.ok [⟨"o", "r"⟩]] envC2
    ∧ get_all_alerts [PageResult.ok [⟨"o", "blocked"⟩, ⟨"o", "r"⟩]] envC2
        = .ok (bucket [expectedNormalized "o" "r"
            (.val ⟨some "high", .missing, .missing, none⟩) .missing none none]) := by
  have key := (soft_failure_isolated envC2 [] [⟨"o", "r"⟩] ⟨"o", "blocked"⟩
    (by decide)).2.2
  simp only [List.nil_append] at key
  exact ⟨key, key.trans (by rfl)⟩

lemma get_user_repos_append (ps : List (List RepoRef)) (rest : List PageResult)
    (h : ∀ p ∈ ps, p ≠ []) :
    get_user_repos (ps.map PageResult.ok ++ rest)
      = (get_user_repos rest).map (fun more => ps.flatten ++ more) := by
  induction ps with
  | nil =>
    cases hr : get_user_repos rest <;> simp [hr, Except.map]
  | cons p ps ih =>
    have hp : p ≠ [] := h p (by simp)
    obtain ⟨a, t, rfl⟩ := List.exists_cons_of_ne_nil hp
    have ih2 := ih (fun q hq => h q (by simp [hq]))
    simp only [List.map_cons, List.cons_append, get_user_repos, List.append_eq]
    rw [ih2]
    cases hr : get_user_repos rest <;>
      simp [Except.map, List.flatten_cons, List.append_assoc]

/-- **C3.**  If any page of the repository listing fails with a transport
error (before the empty-page termination), `get_all_alerts` surfaces a
transport error to its caller and yields no bucket map at all. -/
theorem listing_failure_aborts (ps : List (List RepoRef))
    (e : TransportError) (junk : List PageResult)
    (env : String → String → FetchResult) (h : ∀ p ∈ ps, p ≠ []) :
    get_all_alerts (ps.map PageResult.ok ++ PageResult.err e :: junk) env
      = .error (.transport e) := by
  unfold get_all_alerts
  rw [get_user_repos_append ps (PageResult.err e :: junk) h]
  rfl

/-- Witness for C3: a 500 on the second listing page aborts the run. -/
theorem listing_failure_aborts_witness :
    get_all_alerts
        [PageResult.ok [⟨"o", "r"⟩], PageResult.err (.httpError 500)]
        (fun _ _ => FetchResult.response 200 [])
      = .error (.transport (.httpError 500)) :=
  listing_failure_aborts [[⟨"o", "r"⟩]] (.httpError 500) []
    (fun _ _ => FetchResult.response 200 []) (by decide)

/-- **C7.**  The repository listing walks pages in order, appending each
page's items, and stops exactly at the first empty page: the result is
the concatenation of the non-empty pages, whatever comes after the empty
page, and the same when the stream simply ends. -/
theorem listing_paginates_until_empty (ps : List (List RepoRef))
    (junk : List PageResult) (h : ∀ p ∈ ps, p ≠ []) :
    get_user_repos (ps.map PageResult.ok ++ PageResult.ok [] :: junk)
      = .ok ps.flatten
    ∧ get_user_repos (ps.map PageResult.ok) = .ok ps.flatten := by
  constructor
  · rw [get_user_repos_append ps (PageResult.ok [] :: junk) h]
    simp [get_user_repos, Except.map]
  · rw [show ps.map PageResult.ok = ps.map PageResult.ok ++ [] from by simp,
      get_user_repos_append ps [] h]
    simp [get_user_repos, Except.map]

/-- Witness for C7: two full pages, an empty page, then ignored junk. -/
theorem listing_paginates_until_empty_witness :
    get_user_repos
        [PageResult.ok [⟨"o", "a"⟩, ⟨"o", "b"⟩], PageResult.ok [⟨"o", "c"⟩],
         PageResult.ok [], PageResult.err .netError]
      = .ok [⟨"o", "a"⟩, ⟨"o", "b"⟩, ⟨"o", "c"⟩] := by
  have := (listing_paginates_until_empty [[⟨"o", "a"⟩, ⟨"o", "b"⟩], [⟨"o", "c"⟩]]
    [PageResult.err .netError] (by decide)).1
  simpa using this

/-- The alert endpoint called with `per_page=100` and no page parameter:
the server answers with the first hundred open alerts of the repository
(spec §6; the server side of the single request the client issues). -/
def alerts_api (openAlerts : String → String → List Json) :
    String → String → FetchResult :=
  fun owner repo => .response 200 ((openAlerts owner repo).take 100)

lemma normalizeAll_length (owner repo : String) (l : List Json)
    (res : List SecurityAlert) (h : normalizeAll owner repo l = some res) :
    res.length = l.length := by
  induction l generalizing res with
  | nil => simp [normalizeAll] at h; simp [← h]
  | cons a rest ih =>
    simp only [normalizeAll] at h
    cases ha : normalize owner repo a with
    | none => rw [ha] at h; cases h
    | some alert =>
      rw [ha] at h
      cases hr : normalizeAll owner repo rest with
      | none => rw [hr] at h; cases h
      | some alerts =>
        rw [hr] at h
        cases h
        simp [ih alerts hr]

/-- **C9.**  The per-repository alert fetch issues a single `per_page=100`
request and never paginates: it processes only the first hundred open
alerts of the repository, so at most 100 alerts are ever returned and
bucketed, even when the repository has more open alerts. -/
theorem fetch_caps_at_100 (openAlerts : String → String → List Json)
    (owner repo : String) :
    get_dependabot_alerts (alerts_api openAlerts) owner repo
      = normalizeAll owner repo ((openAlerts owner repo).take 100)
    ∧ ∀ res, get_dependabot_alerts (alerts_api openAlerts) owner repo
        = some res → res.length ≤ 100 := by
  have h1 : get_dependabot_alerts (alerts_api openAlerts) owner repo
      = normalizeAll owner repo ((openAlerts owner repo).take 100) := rfl
  refine ⟨h1, fun res hres => ?_⟩
  rw [h1] at hres
  have := normalizeAll_length owner repo _ res hres
  rw [this]
  calc ((openAlerts owner repo).take 100).length
      ≤ 100 := by simp [List.length_take]

lemma normalizeAll_replicate (owner repo : String) (j : Json)
    (a : SecurityAlert) (n : Nat) (h : normalize owner repo j = some a) :
    normalizeAll owner repo (List.replicate n j)
      = some (List.replicate n a) := by
  induction n with
  | zero => rfl
  | succ n ih => simp [List.replicate_succ, normalizeAll, h, ih]

/-- Witness for C9: a repository with 101 open alerts yields exactly the
first 100, normalized. -/
theorem fetch_caps_at_100_witness :
    get_dependabot_alerts
        (alerts_api (fun _ _ =>
          List.replicate 101 (mkRawAlert .missing .missing none none)))
        "o" "r"
      = some (List.replicate 100
          (expectedNormalized "o" "r" .missing .missing none none))
    ∧ (List.replicate 100
        (expectedNormalized "o" "r" .missing .missing none none)).length
      ≤ 100 := by
  have h1 := (fetch_caps_at_100
    (fun _ _ => List.replicate 101 (mkRawAlert .missing .missing none none))
    "o" "r").1
  rw [List.take_replicate] at h1
  have h2 : normalize "o" "r" (mkRawAlert .missing .missing none none)
      = some (expectedNormalized "o" "r" .missing .missing none none) := by
    decide
  rw [normalizeAll_replicate "o" "r" _ _ _ h2] at h1
  exact ⟨by simpa using h1, by simp⟩

/-! ### Recipient registry (`storage.py`) -/

/-- One registry record (`data["users"][chat_id_str]`). -/
structure UserRecord where
  username : Option String
  activated_at : String
deriving Repr, DecidableEq

/-- The persistent JSON file: absent, unparseable, or parsed content whose
`users` key may be missing (`none`) or hold a dict. -/
inductive FileState where
  | absent
  | corrupt
  | content (users : Option (List (String × UserRecord)))
deriving Repr, DecidableEq

/-- Dict lookup in the users map. -/
def lookupUser : List (String × UserRecord) → String → Option UserRecord
  | [], _ => none
  | (k, v) :: rest, key => if key = k then some v else lookupUser rest key

/-- `load_users` (`storage.py` lines 16–25): a missing or unreadable file
degrades to `{"users": {}}`; otherwise the parsed content (projected to
its `users` key, `none` when the key is missing). -/
def load_users : FileState → Option (List (String × UserRecord))
  | .absent => some []
  | .corrupt => some []
  | .content users => users

/-- `is_user_activated` (lines 34–37): `str(chat_id) in data.get("users", {})`. -/
def is_user_activated (fs : FileState) (chat_id : Int) : Bool :=
  (lookupUser ((load_users fs).getD []) (toString chat_id)).isSome

/-- `get_user_info` (lines 69–72). -/
def get_user_info (fs : FileState) (chat_id : Int) : Option UserRecord :=
  lookupUser ((load_users fs).getD []) (toString chat_id)

/-- Result of `activate_user`: its boolean return, whether `save_users`
ran, and the file state afterwards. -/
structure ActivateOutcome where
  is_new : Bool
  saved : Bool
  state : FileState
deriving Repr, DecidableEq

/-- `activate_user` (`storage.py` lines 40–61): load, default the `users`
key, return `False` without writing when the id is present, else insert
the record (with the current timestamp `now`), save, and return `True`. -/
def activate_user (fs : FileState) (now : String) (chat_id : Int)
    (username : Option String) : ActivateOutcome :=
  let users := (load_users fs).getD []
  let cid := toString chat_id
  if (lookupUser users cid).isSome then ⟨false, false, fs⟩
  else ⟨true, true, .content (some (users ++ [(cid, ⟨username, now⟩)]))⟩

lemma load_users_content (users : Option (List (String × UserRecord))) :
    load_users (.content users) = users := rfl

lemma lookupUser_append_self (users : List (String × UserRecord))
    (cid : String) (rec : UserRecord) (h : lookupUser users cid = none) :
    lookupUser (users ++ [(cid, rec)]) cid = some rec := by
  induction users with
  | nil => simp [lookupUser]
  | cons p rest ih =>
    simp only [List.cons_append, lookupUser] at h ⊢
    split_ifs at h ⊢ with hk
    exact ih h

/-- **C8.**  Registering an id that is not yet registered returns "newly
registered"; afterwards the id is registered, and a second registration
of the same id returns not-new. -/
theorem register_twice_semantics (fs : FileState) (now now2 : String)
    (chat_id : Int) (uname uname2 : Option String)
    (h : is_user_activated fs chat_id = false) :
    (activate_user fs now chat_id uname).is_new = true
    ∧ is_user_activated (activate_user fs now chat_id uname).state chat_id
        = true
    ∧ (activate_user (activate_user fs now chat_id uname).state now2 chat_id
        uname2).is_new = false := by
  simp only [is_user_activated] at h
  have h0 : lookupUser ((load_users fs).getD []) (toString chat_id) = none := by
    cases hx : lookupUser ((load_users fs).getD []) (toString chat_id) with
    | none => rfl
    | some v => rw [hx] at h; simp at h
  have hmem := lookupUser_append_self _ (toString chat_id)
    (⟨uname, now⟩ : UserRecord) h0
  refine ⟨?_, ?_, ?_⟩
  · simp [activate_user, h0]
  · simp [is_user_activated, activate_user, h0, load_users_content, hmem]
  · simp [activate_user, h0, load_users_content, hmem]

/-- Witness for C8: chat id 42 on a fresh file. -/
theorem register_twice_semantics_witness :
    is_user_activated .absent 42 = false
    ∧ (activate_user .absent "t1" 42 (some "u")).is_new = true
    ∧ is_user_activated (activate_user .absent "t1" 42 (some "u")).state 42
        = true
    ∧ (activate_user (activate_user .absent "t1" 42 (some "u")).state "t2" 42
        (some "v")).is_new = false :=
  ⟨by decide,
    (register_twice_semantics .absent "t1" "t2" 42 (some "u") (some "v")
      (by decide)).1,
    (register_twice_semantics .absent "t1" "t2" 42 (some "u") (some "v")
      (by decide)).2.1,
    (register_twice_semantics .absent "t1" "t2" 42 (some "u") (some "v")
      (by decide)).2.2⟩

/-- **C10.**  Registering an id that is already registered returns
not-new before any write: `save_users` is not called, the file state is
exactly unchanged, and the stored record (display name and activation
timestamp) is preserved. -/
theorem register_existing_id_is_noop (fs : FileState) (now : String)
    (chat_id : Int) (uname : Option String)
    (h : is_user_activated fs chat_id = true) :
    activate_user fs now chat_id uname
        = ⟨false, false, fs⟩
    ∧ get_user_info (activate_user fs now chat_id uname).state chat_id
        = get_user_info fs chat_id := by
  simp only [is_user_activated] at h
  constructor
  · simp [activate_user, h]
  · simp [activate_user, h]

/-- Witness for C10: re-registering chat id 42 leaves its record (name
and timestamp) untouched and does not write the file. -/
theorem register_existing_id_is_noop_witness :
    is_user_activated (.content (some [("42", ⟨some "u", "t1"⟩)])) 42 = true
    ∧ activate_user (.content (some [("42", ⟨some "u", "t1"⟩)])) "t2" 42
        (some "w")
      = ⟨false, false, .content (some [("42", ⟨some "u", "t1"⟩)])⟩
    ∧ get_user_info
        (activate_user (.content (some [("42", ⟨some "u", "t1"⟩)])) "t2" 42
          (some "w")).state 42
      = some ⟨some "u", "t1"⟩ :=
  ⟨by decide,
    (register_existing_id_is_noop (.content (some [("42", ⟨some "u", "t1"⟩)]))
      "t2" 42 (some "w") (by decide)).1,
    ((register_existing_id_is_noop (.content (some [("42", ⟨some "u", "t1"⟩)]))
      "t2" 42 (some "w") (by decide)).2).trans (by decide)⟩

/-! ### Report rendering (`format_alerts_report`, lines 154–208) -/

/-- Python `a or b` on strings. -/
def pyOrS (a b : String) : String := if a = "" then b else a

/-- Python `str.upper()` via the character list. -/
def strUpper (s : String) : String := String.mk (s.data.map Char.toUpper)

/-- Lookup in the emoji / display-name maps. -/
def lookupStr : List (String × String) → String → Option String
  | [], _ => none
  | (k, v) :: rest, key => if key = k then some v else lookupStr rest key

def severity_emoji : List (String × String) :=
  [("critical", "🔴"), ("high", "🟠"), ("moderate", "🟡"), ("low", "🔵")]

def severity_names : List (String × String) :=
  [("critical", "CRITICAL"), ("high", "HIGH"), ("moderate", "MODERATE"),
   ("low", "LOW")]

/-- The section header line `f"\n{emoji} *{name}* ({len})"`. -/
def sectionHeader (severity : String) (n : Nat) : String :=
  "\n" ++ ((lookupStr severity_emoji severity).getD "⚪") ++ " *"
    ++ ((lookupStr severity_names severity).getD (strUpper severity))
    ++ "* (" ++ toString n ++ ")"

/-- The rule line `"─" * 25`. -/
def headerRule : String := String.mk (List.replicate 25 '─')

/-- The lines one alert contributes to its section (lines 192–199). -/
def alertEntry (alert : SecurityAlert) : List String :=
  let cve := pyOrS alert.cve_id (pyOrS alert.ghsa_id "N/A")
  ["📦 `" ++ alert.package_name ++ "`",
   "   📁 " ++ alert.repo_name,
   "   🆔 " ++ cve,
   "   ⬆️ Обновить до: " ++ alert.patched_version]
  ++ (if alert.url = "" then [] else ["   🔗 [Подробнее](" ++ alert.url ++ ")"])
  ++ [""]

/-- The lines one severity contributes to the report: one iteration of
the `for severity in [...]` loop (lines 183–204), with the first ten
alerts rendered and a remainder line when more exist. -/
def renderSection (alerts : List (String × List SecurityAlert))
    (severity : String) : List String :=
  let severity_alerts := (lookupBucket alerts severity).getD []
  if severity_alerts.isEmpty then []
  else
    sectionHeader severity severity_alerts.length
    :: headerRule
    :: ((severity_alerts.take 10).flatMap alertEntry
        ++ (if 10 < severity_alerts.length then
              ["   ... и ещё " ++ toString (severity_alerts.length - 10)]
            else []))

/-- `format_alerts_report` (lines 154–208). -/
def format_alerts_report (alerts : List (String × List SecurityAlert)) :
    String :=
  let total := (alerts.map (fun p => p.2.length)).sum
  if total = 0 then
    "✅ *Security Monitor Report*\n\nНет открытых уязвимостей! Все репозитории в безопасности."
  else
    String.intercalate "\n"
      (["🛡️ *Security Monitor Report*",
        "📅 Найдено уязвимостей: *" ++ toString total ++ "*",
        ""]
       ++ (["critical", "high", "moderate", "low"].flatMap
            (renderSection alerts))
       ++ ["\n💡 *Рекомендация:* Обновите зависимости командой `npm update` или `pip install --upgrade`"])

lemma append_ne_empty (s t : String) (hs : 0 < s.length) : s ++ t ≠ "" := by
  intro h
  have hlen := congrArg String.length h
  rw [String.length_append] at hlen
  have h0 : ("" : String).length = 0 := rfl
  omega

lemma sectionHeader_ne_empty (severity : String) (n : Nat) :
    sectionHeader severity n ≠ "" := by
  unfold sectionHeader
  intro h
  have hlen := congrArg String.length h
  simp only [String.length_append] at hlen
  have h1 : ("\n" : String).length = 1 := rfl
  have h0 : ("" : String).length = 0 := rfl
  omega

lemma append3_ne_empty (s t u : String) (hs : 0 < s.length) :
    s ++ t ++ u ≠ "" := by
  apply append_ne_empty
  rw [String.length_append]
  omega

lemma beq_empty_false (s : String) (h : s ≠ "") : (s == "") = false := by
  cases hb : s == ""
  · rfl
  · exact absurd (eq_of_beq hb) h

lemma alertEntry_count_empty (a : SecurityAlert) :
    (alertEntry a).count "" = 1 := by
  have h1 := beq_empty_false _
    (append3_ne_empty "📦 `" a.package_name "`" (by decide))
  have h2 := beq_empty_false _
    (append_ne_empty "   📁 " a.repo_name (by decide))
  have h3 := beq_empty_false _
    (append_ne_empty "   🆔 " (pyOrS a.cve_id (pyOrS a.ghsa_id "N/A"))
      (by decide))
  have h4 := beq_empty_false _
    (append_ne_empty "   ⬆️ Обновить до: " a.patched_version (by decide))
  have h5 := beq_empty_false _
    (append3_ne_empty "   🔗 [Подробнее](" a.url ")" (by decide))
  by_cases hurl : a.url = "" <;>
    simp [alertEntry, hurl, List.count_cons, List.count_append, h1, h2, h3,
      h4, h5]

lemma flatMap_alertEntry_count (L : List SecurityAlert) :
    (L.flatMap alertEntry).count "" = L.length := by
  induction L with
  | nil => simp
  | cons a L ih =>
    simp [List.flatMap_cons, List.count_append, alertEntry_count_empty, ih]
    omega

/-- **C6.**  In a rendered severity section holding the `n` alerts of its
bucket: when `n > 10` exactly the first ten alerts are rendered (in
bucket order) followed by a single remainder line naming the exact count
`n − 10`; when `n ≤ 10` all `n` alerts are rendered and no remainder
line appears; in both cases the number of rendered alert entries is
`min n 10`. -/
theorem render_section_truncates
    (alerts : List (String × List SecurityAlert)) (severity : String)
    (ls : List SecurityAlert) (hlk : lookupBucket alerts severity = some ls)
    (hne : ls ≠ []) :
    (10 < ls.length →
      renderSection alerts severity
        = sectionHeader severity ls.length
          :: headerRule
          :: ((ls.take 10).flatMap alertEntry
              ++ ["   ... и ещё " ++ toString (ls.length - 10)]))
    ∧ (ls.length ≤ 10 →
      renderSection alerts severity
        = sectionHeader severity ls.length
          :: headerRule
          :: ls.flatMap alertEntry)
    ∧ (renderSection alerts severity).count "" = min ls.length 10 := by
  have hie : ls.isEmpty = false := by
    cases ls
    · exact absurd rfl hne
    · rfl
  have hrule : (headerRule == "") = false := by decide
  have hhdr := beq_empty_false _ (sectionHeader_ne_empty severity ls.length)
  have hsum := beq_empty_false _
    (append_ne_empty "   ... и ещё " (toString (ls.length - 10)) (by decide))
  refine ⟨?_, ?_, ?_⟩
  · intro h10
    simp only [renderSection, hlk, Option.getD_some, hie, Bool.false_eq_true,
      if_false, if_pos h10]
  · intro h10
    simp only [renderSection, hlk, Option.getD_some, hie, Bool.false_eq_true,
      if_false, if_neg (not_lt.mpr h10), List.take_of_length_le h10,
      List.append_nil]
  · simp only [renderSection, hlk, Option.getD_some, hie, Bool.false_eq_true,
      if_false]
    rw [List.count_cons, List.count_cons, hhdr, hrule, List.count_append]
    rw [flatMap_alertEntry_count, List.length_take]
    by_cases h10 : 10 < ls.length
    · rw [if_pos h10, List.count_cons, hsum]
      simp
      omega
    · rw [if_neg h10]
      simp
      omega

/-- A sample alert for the rendering witness. -/
def alertW : SecurityAlert :=
  ⟨"o/r", "pkg", "critical", "CVE-1", "", "sum", "<1", "1.2", "", "ts"⟩

/-- Witness for C6: a critical bucket holding fifteen alerts renders ten
entries plus the remainder line for the other five. -/
theorem render_section_truncates_witness :
    10 < (List.replicate 15 alertW).length
    ∧ renderSection [("critical", List.replicate 15 alertW)] "critical"
        = sectionHeader "critical" (List.replicate 15 alertW).length
          :: headerRule
          :: (((List.replicate 15 alertW).take 10).flatMap alertEntry
              ++ ["   ... и ещё "
                    ++ toString ((List.replicate 15 alertW).length - 10)])
    ∧ (renderSection [("critical", List.replicate 15 alertW)]
        "critical").count "" = 10 := by
  refine ⟨by decide, ?_, ?_⟩
  · exact (render_section_truncates [("critical", List.replicate 15 alertW)]
      "critical" (List.replicate 15 alertW) rfl (by decide)).1 (by decide)
  · exact ((render_section_truncates [("critical", List.replicate 15 alertW)]
      "critical" (List.replicate 15 alertW) rfl (by decide)).2.2).trans
      (by decide)

end SecBot